import Mathlib

/-!
Verification of `h2o-py/h2o/utils/typechecks.py` (runtime type-assertion and
diagnostic-reporting utilities) against its natural-language specification.

The Python module is shallowly embedded: Python runtime values become `PyVal`,
type-specification values become `SpecVal`, raised exceptions become the
`Except PyErr` monad, and the caller's source file (read by the call-site
introspector) becomes an explicit `Option (List Tok)` parameter — `none` models
a file that cannot be opened (interactive session, dynamically compiled code),
`some toks` the token stream that Python's `tokenize` module produces from the
caller's source starting at the call line.  Each assertion entry point also
returns a `Nat` counting how many times the introspector attempted to open the
source file, so that the on-failure-only I/O discipline is provable.
-/

namespace Typechecks

/-- Concrete Python runtime type tags relevant to the module (`bool`, `int`,
`float`, `str`, `list`, `tuple`, `NoneType`, plus foreign classes identified
by name, standing for classes such as `H2OFrame`). -/
inductive PyType where
  | bool
  | int
  | float
  | str
  | list
  | tuple
  | noneType
  | foreign (cls : String)
deriving DecidableEq, Repr

/-- Python runtime values, as far as the module inspects them: the `None`
sentinel, booleans, integers, floats (payload kept as an integer code since no
claim computes with float arithmetic), strings, lists, tuples, and opaque
foreign-class instances identified by their class name. -/
inductive PyVal where
  | none
  | bool (b : Bool)
  | int (n : Int)
  | float (code : Int)
  | str (s : String)
  | list (xs : List PyVal)
  | tuple (xs : List PyVal)
  | foreign (cls : String)

/-- Values a caller can pass as the `expected_type` argument (a type
specification): the `None` literal, a type object, a tuple of specifications,
a list of specifications, or arbitrary garbage such as a plain string. -/
inductive SpecVal where
  | noneSpec
  | typeSpec (t : PyType)
  | tupleSpec (ts : List SpecVal)
  | listSpec (ts : List SpecVal)
  | strSpec (s : String)

/-- Python's `isinstance(v, t)` for a single class object `t`.  Faithful to
CPython semantics: `bool` is a subclass of `int`, so a boolean value satisfies
an `int` instance check; every other tag matches only its own values. -/
def isinstance_ (v : PyVal) (t : PyType) : Bool :=
  match v, t with
  | .bool _, .bool => true
  | .bool _, .int => true
  | .int _, .int => true
  | .float _, .float => true
  | .str _, .str => true
  | .list _, .list => true
  | .tuple _, .tuple => true
  | .none, .noneType => true
  | .foreign c, .foreign c2 => c == c2
  | _, _ => false

/-- Python's `v is None`. -/
def isNone (v : PyVal) : Bool :=
  match v with
  | .none => true
  | _ => false

/-- Exceptions the embedded code can raise.  `ioError` models the `IOError` /
`OSError` from a failed `open` of the caller's source file; `runtimeError`
models the matcher's own `RuntimeError` logic error; `assertionError` models a
failed Python `assert` inside the introspector; `indexError` models
`args[0]` on an empty argument list; `valueErrorUnpack` models a failed 2-tuple
unpacking; `typeError` models `isinstance` called with invalid classinfo.
`h2oTypeError` and `h2oValueError*` model the structured violation errors from
`h2o.exceptions`, carrying the fields with which the module constructs them. -/
inductive PyErr where
  | ioError
  | runtimeError
  | assertionError
  | indexError
  | valueErrorUnpack
  | typeError
  | h2oTypeError (varName : String) (varValue : PyVal) (expType : SpecVal)
      (message : Option String) (skipFrames : Nat)
  | h2oValueErrorMatch (varName : String) (value : String) (regex : String)
  | h2oValueErrorSatisfies (varName : String) (value : PyVal) (vexpr : String)

/-- `is_str(s)`: `isinstance(s, _str_type)` with `_str_type = str` (Py3). -/
def is_str (s : PyVal) : Bool := isinstance_ s .str

/-- `is_int(i)`: `isinstance(i, _int_type)` with `_int_type = int` (Py3). -/
def is_int (i : PyVal) : Bool := isinstance_ i .int

/-- `is_numeric(x)`: `isinstance(x, _num_type)` with `_num_type = (int, float)`. -/
def is_numeric (x : PyVal) : Bool := isinstance_ x .int || isinstance_ x .float

/-- `is_listlike(s)`: `isinstance(s, (list, tuple))`. -/
def is_listlike (s : PyVal) : Bool := isinstance_ s .list || isinstance_ s .tuple

/-- Python's `isinstance(v, classinfo)` as a fallible call: classinfo must be a
type or a (flat) tuple of types, otherwise CPython raises `TypeError`.  The
tuple is scanned left to right with short-circuiting.  (The module only ever
passes a single type or a flat tuple of types, so nested classinfo tuples are
not modelled.) -/
def isinstanceTup (v : PyVal) : List SpecVal → Except PyErr Bool
  | [] => .ok false
  | .typeSpec t :: cs => if isinstance_ v t then .ok true else isinstanceTup v cs
  | _ :: _ => .error .typeError

/-- See `isinstanceTup`. -/
def isinstanceE (v : PyVal) (classinfo : SpecVal) : Except PyErr Bool :=
  match classinfo with
  | .typeSpec t => .ok (isinstance_ v t)
  | .tupleSpec cs => isinstanceTup v cs
  | _ => .error .typeError

/-- The predicate `is_str` as the Python call it is (a fallible evaluation):
`isinstance(s, str)`. -/
def is_strE (s : PyVal) : Except PyErr Bool := isinstanceE s (.typeSpec .str)

/-- `is_int` as the Python call `isinstance(i, int)`. -/
def is_intE (i : PyVal) : Except PyErr Bool := isinstanceE i (.typeSpec .int)

/-- `is_numeric` as the Python call `isinstance(x, (int, float))`. -/
def is_numericE (x : PyVal) : Except PyErr Bool :=
  isinstanceE x (.tupleSpec [.typeSpec .int, .typeSpec .float])

/-- `is_listlike` as the Python call `isinstance(s, (list, tuple))`. -/
def is_listlikeE (s : PyVal) : Except PyErr Bool :=
  isinstanceE s (.tupleSpec [.typeSpec .list, .typeSpec .tuple])

/-- `_check_type(s, tt, _nested=True)`: the recursive call made for each
alternative of a tuple spec.  With `_nested=True` the tuple branch of
`_check_type` is disabled, so a nested tuple (or any other non-type,
non-`None` shape) falls through to `raise RuntimeError(...)`. -/
def _check_nested (s : PyVal) (stype : SpecVal) : Except PyErr Bool :=
  match stype with
  | .noneSpec => .ok (isNone s)
  | .typeSpec .str => .ok (isinstance_ s .str)
  | .typeSpec .int => .ok (isinstance_ s .int)
  | .typeSpec t => .ok (isinstance_ s t)
  | _ => .error .runtimeError

/-- `any(_check_type(s, tt, _nested=True) for tt in stype)`: Python's `any`
over a generator, scanning left to right, short-circuiting at the first true
result; an exception raised by an alternative propagates out of `any`. -/
def _check_any (s : PyVal) : List SpecVal → Except PyErr Bool
  | [] => .ok false
  | t :: ts =>
    match _check_nested s t with
    | .error e => .error e
    | .ok true => .ok true
    | .ok false => _check_any s ts

/-- `_check_type(s, stype)` (top level, `_nested=False`): `None` spec checks
`s is None`; `str` and `int` specs check against `_str_type` / `_int_type`
(on Py3 these equal `str` / `int`); any other type object is an `isinstance`
check; a tuple spec is an alternation over its elements; everything else
raises `RuntimeError`. -/
def _check_type (s : PyVal) (stype : SpecVal) : Except PyErr Bool :=
  match stype with
  | .noneSpec => .ok (isNone s)
  | .typeSpec .str => .ok (isinstance_ s .str)
  | .typeSpec .int => .ok (isinstance_ s .int)
  | .typeSpec t => .ok (isinstance_ s t)
  | .tupleSpec ts => _check_any s ts
  | _ => .error .runtimeError

/-! ## Call-site introspector (`_retrieve_assert_arguments`)

The Python function walks the stack to the first frame outside the module,
opens that frame's source file, skips to the call line, and runs
`tokenize.generate_tokens` from there.  The stack walk, the `open`, and the
tokenizer are host-runtime services; the embedding abstracts them into a
single input `Option (List Tok)`: `none` when the source file cannot be
opened (Python's `open` raises `IOError`, which the module does not catch),
`some toks` the tokens of the caller's source from the call line onward, with
the start/end columns Python's tokenizer reports. -/

/-- Token categories of Python's `tokenize` module that the scanner
distinguishes (`tokenize.NAME`, `tokenize.OP`); everything else (numbers,
strings, newlines, ...) is `other`. -/
inductive TokKind where
  | name
  | op
  | other
deriving DecidableEq, Repr

/-- One token from `tokenize.generate_tokens`: its kind, text, and start/end
columns on its source row (claims exercise single-row calls, so the row is
left implicit). -/
structure Tok where
  kind : TokKind
  text : String
  startCol : Nat
  endCol : Nat
deriving DecidableEq, Repr

/-- Python's `s.startswith(p)`: `p` is a prefix of `s` (character-wise). -/
def pyStartsWith (s p : String) : Bool := p.toList.isPrefixOf s.toList

/-- Python's `s.strip()`: drop leading and trailing whitespace. -/
def pyStrip (s : String) : String :=
  String.mk (((s.toList.dropWhile Char.isWhitespace).reverse.dropWhile
    Char.isWhitespace).reverse)

/-- Python's `s.replace("\n", " ")`: since the pattern is a single character,
this is a character-wise map. -/
def replaceNewlines (s : String) : String :=
  String.mk (s.toList.map (fun c => if c == '\n' then ' ' else c))

/-- `ttt[1] in "([{"` for an (always nonempty) OP token text. -/
def isOpenBracket (s : String) : Bool := s == "(" || s == "[" || s == "\x7b"

/-- `ttt[1] in ")]}"` for an (always nonempty) OP token text. -/
def isCloseBracket (s : String) : Bool := s == ")" || s == "]" || s == "\x7d"

/-- The scanner's `step` variable (0: looking for a name starting with
`assert_`; 1: expecting the opening parenthesis; 2: accumulating argument
tokens). -/
inductive Step where
  | s0
  | s1
  | s2
deriving DecidableEq, Repr

/-- `args_tokens[-1].append(ttt)`.  In the scanner this is only reached in
step 2, after `args_tokens.append([])` ran at the opening parenthesis, so the
accumulator is never empty there. -/
def appendLast (acc : List (List Tok)) (t : Tok) : List (List Tok) :=
  acc.dropLast ++ [acc.getLastD [] ++ [t]]

/-- The token scan of `_retrieve_assert_arguments` (the `for ttt in g` loop):
step 0 skips tokens until a NAME starting with `assert_`; step 1 asserts an
OP `(` and opens the first argument buffer; step 2 splits buffers at OP `,`
when the bracket-nesting level is 0, stops at OP `)` at level 0, and
otherwise adjusts the level at single-character bracket OPs, asserts the
level never goes negative, and appends the token to the current buffer.  If
the token stream ends without the closing parenthesis, the `for` loop simply
ends and the buffers collected so far are returned. -/
def tokenLoop : List Tok → Step → List (List Tok) → Int → Except PyErr (List (List Tok))
  | [], _, acc, _ => .ok acc
  | t :: ts, .s0, acc, lvl =>
    if t.kind == .name && pyStartsWith t.text "assert_" then tokenLoop ts .s1 acc lvl
    else tokenLoop ts .s0 acc lvl
  | t :: ts, .s1, acc, lvl =>
    if t.kind == .op && t.text == "(" then tokenLoop ts .s2 (acc ++ [[]]) lvl
    else .error .assertionError
  | t :: ts, .s2, acc, lvl =>
    if lvl == 0 && t.kind == .op && t.text == "," then
      tokenLoop ts .s2 (acc ++ [[]]) lvl
    else if lvl == 0 && t.kind == .op && t.text == ")" then
      .ok acc
    else
      let lvl1 := if t.kind == .op && isOpenBracket t.text then lvl + 1 else lvl
      let lvl2 := if t.kind == .op && isCloseBracket t.text then lvl1 - 1 else lvl1
      if lvl2 < 0 then .error .assertionError
      else tokenLoop ts .s2 (appendLast acc t) lvl2

/-- `tokenize.untokenize(at)` for tokens on a single source row: starting from
column 0, pad with spaces up to each token's start column (no padding when the
columns already meet) and append its text. -/
def untokenize (toks : List Tok) : String :=
  (toks.foldl
    (fun st t =>
      (st.1 ++ String.mk (List.replicate (t.startCol - st.2) ' ') ++ t.text, t.endCol))
    ("", 0)).1

/-- `_retrieve_assert_arguments()`: open the caller's source file (an
unreadable file raises `IOError`, uncaught), scan its tokens, then flatten
each argument's token buffer with
`tokenize.untokenize(at).strip().replace("\n", " ")`. -/
def _retrieve_assert_arguments (src : Option (List Tok)) : Except PyErr (List String) :=
  match src with
  | .none => .error .ioError
  | .some toks =>
    match tokenLoop toks .s0 [] 0 with
    | .error e => .error e
    | .ok argsTokens =>
      .ok (argsTokens.map (fun buf => replaceNewlines (pyStrip (untokenize buf))))

/-! ## Assertion façade

Each entry point returns the Python call's outcome (`Except PyErr`) paired
with the number of attempts to open the caller's source file, so that the
"file I/O only on the failure path" discipline is statable.  `src` is the
caller's source file as the introspector would see it. -/

/-- `re.match(regex, v)` for a metacharacter-free (literal) pattern: Python's
`re.match` anchors at the start of the string only, so a literal pattern
matches iff it is a prefix of `v`; on success the match object's matched text
is the pattern itself. -/
def reMatchLit (regex v : String) : Option String :=
  if regex.toList.isPrefixOf v.toList then some regex else none

/-- `assert_is_type(var, expected_type, message, skip_frames)`: return
silently when `_check_type` succeeds (no introspection); otherwise run
`_retrieve_assert_arguments()[0]` and raise `H2OTypeError` with the recovered
name.  A `RuntimeError` from `_check_type`, or any exception from the
introspector, propagates uncaught. -/
def assert_is_type (var : PyVal) (expected_type : SpecVal) (message : Option String)
    (skip_frames : Nat) (src : Option (List Tok)) : Except PyErr Unit × Nat :=
  match _check_type var expected_type with
  | .ok true => (.ok (), 0)
  | .error e => (.error e, 0)
  | .ok false =>
    match _retrieve_assert_arguments src with
    | .error e => (.error e, 1)
    | .ok args =>
      match args.head? with
      | .none => (.error .indexError, 1)
      | .some vname =>
        (.error (.h2oTypeError vname var expected_type message skip_frames), 1)

/-- `assert_is_str(s)`: `assert_is_type(s, str, skip_frames=2)`. -/
def assert_is_str (s : PyVal) (src : Option (List Tok)) : Except PyErr Unit × Nat :=
  assert_is_type s (.typeSpec .str) .none 2 src

/-- `assert_is_int(x)`: `assert_is_type(x, int, skip_frames=2)`. -/
def assert_is_int (x : PyVal) (src : Option (List Tok)) : Except PyErr Unit × Nat :=
  assert_is_type x (.typeSpec .int) .none 2 src

/-- `assert_is_numeric(x)`: `assert_is_type(x, (int, float), skip_frames=2)`. -/
def assert_is_numeric (x : PyVal) (src : Option (List Tok)) : Except PyErr Unit × Nat :=
  assert_is_type x (.tupleSpec [.typeSpec .int, .typeSpec .float]) .none 2 src

/-- `assert_matches(v, regex)`: when `re.match` succeeds, return the match
object; otherwise recover the variable name via the introspector and raise
`H2OValueError` built from the name, the value, and the pattern.  As in the
source, an introspector exception propagates uncaught.  Modelled for literal
patterns (`reMatchLit`). -/
def assert_matches (v : String) (regex : String) (src : Option (List Tok)) :
    Except PyErr (Option String) × Nat :=
  match reMatchLit regex v with
  | .some m => (.ok (.some m), 0)
  | .none =>
    match _retrieve_assert_arguments src with
    | .error e => (.error e, 1)
    | .ok args =>
      match args.head? with
      | .none => (.error .indexError, 1)
      | .some vn => (.error (.h2oValueErrorMatch vn v regex), 1)

/-- `assert_satisfies(v, cond)`: when `cond` is falsy, run
`vname, vexpr = _retrieve_assert_arguments()` (a 2-tuple unpacking, raising
`ValueError` unless exactly two expressions were recovered) and raise
`H2OValueError` from the recovered name and condition text. -/
def assert_satisfies (v : PyVal) (cond : Bool) (src : Option (List Tok)) :
    Except PyErr Unit × Nat :=
  if cond then (.ok (), 0)
  else
    match _retrieve_assert_arguments src with
    | .error e => (.error e, 1)
    | .ok args =>
      match args with
      | [vname, vexpr] => (.error (.h2oValueErrorSatisfies vname v vexpr), 1)
      | _ => (.error .valueErrorUnpack, 1)

/-! ## Concrete token streams

Token streams (with the start/end columns Python's tokenizer reports) for the
concrete source lines exercised by the specification's examples. -/

/-- Tokens of the source line `assert_satisfies(x, x in [1, 2, 3])`. -/
def satisfiesLineToks : List Tok :=
  [⟨.name, "assert_satisfies", 0, 16⟩, ⟨.op, "(", 16, 17⟩,
   ⟨.name, "x", 17, 18⟩, ⟨.op, ",", 18, 19⟩,
   ⟨.name, "x", 20, 21⟩, ⟨.name, "in", 22, 24⟩, ⟨.op, "[", 25, 26⟩,
   ⟨.other, "1", 26, 27⟩, ⟨.op, ",", 27, 28⟩, ⟨.other, "2", 29, 30⟩,
   ⟨.op, ",", 30, 31⟩, ⟨.other, "3", 32, 33⟩, ⟨.op, "]", 33, 34⟩,
   ⟨.op, ")", 34, 35⟩, ⟨.other, "\n", 35, 36⟩]

/-- Tokens of the source line `assert_is_type(num_threads, int)`. -/
def numThreadsLineToks : List Tok :=
  [⟨.name, "assert_is_type", 0, 14⟩, ⟨.op, "(", 14, 15⟩,
   ⟨.name, "num_threads", 15, 26⟩, ⟨.op, ",", 26, 27⟩,
   ⟨.name, "int", 28, 31⟩, ⟨.op, ")", 31, 32⟩, ⟨.other, "\n", 32, 33⟩]

/-- Tokens of the source line `assert_matches(v, "hello")`. -/
def matchesLineToks : List Tok :=
  [⟨.name, "assert_matches", 0, 14⟩, ⟨.op, "(", 14, 15⟩,
   ⟨.name, "v", 15, 16⟩, ⟨.op, ",", 16, 17⟩,
   ⟨.other, "\"hello\"", 18, 25⟩, ⟨.op, ")", 25, 26⟩, ⟨.other, "\n", 26, 27⟩]

/-! ## Helper notions for the theorems -/

/-- A specification that is valid at nesting depth 1: the `None` literal or a
single type object (exactly the shapes `_check_type` accepts when
`_nested=True`). -/
def isValid1 (t : SpecVal) : Bool :=
  match t with
  | .noneSpec => true
  | .typeSpec _ => true
  | _ => false

/-- What one valid depth-1 alternative matches: the `None` spec matches the
`None` value, a type object is an `isinstance` check. -/
def match1 (s : PyVal) (t : SpecVal) : Bool :=
  match t with
  | .noneSpec => isNone s
  | .typeSpec ty => isinstance_ s ty
  | _ => false

/-- A spec shape the matcher accepts at the top level without raising its
logic error: `None`, a type object, or a tuple. -/
def specShapeOk (t : SpecVal) : Bool :=
  match t with
  | .noneSpec => true
  | .typeSpec _ => true
  | .tupleSpec _ => true
  | _ => false

theorem check_nested_of_valid1 (s : PyVal) (t : SpecVal) (h : isValid1 t = true) :
    _check_nested s t = .ok (match1 s t) := by
  cases t with
  | noneSpec => rfl
  | typeSpec ty => cases ty <;> rfl
  | tupleSpec ts => simp [isValid1] at h
  | listSpec ts => simp [isValid1] at h
  | strSpec s => simp [isValid1] at h

theorem check_any_of_valid1 (s : PyVal) (ts : List SpecVal)
    (h : ∀ t ∈ ts, isValid1 t = true) :
    _check_any s ts = .ok (ts.any (match1 s)) := by
  induction ts with
  | nil => rfl
  | cons t ts ih =>
    have ht : isValid1 t = true := h t (by simp)
    have hts : ∀ x ∈ ts, isValid1 x = true := fun x hx => h x (by simp [hx])
    rw [_check_any, check_nested_of_valid1 s t ht]
    cases hmt : match1 s t with
    | true => simp [hmt]
    | false => simp [hmt, ih hts]

theorem any_eq_of_perm (p : SpecVal → Bool) (l1 l2 : List SpecVal)
    (h : l1.Perm l2) : l1.any p = l2.any p := by
  have hiff : l1.any p = true ↔ l2.any p = true := by
    simp only [List.any_eq_true]
    constructor
    · rintro ⟨x, hx, hpx⟩
      exact ⟨x, h.mem_iff.mp hx, hpx⟩
    · rintro ⟨x, hx, hpx⟩
      exact ⟨x, h.mem_iff.mpr hx, hpx⟩
  cases h1 : l1.any p <;> cases h2 : l2.any p <;> simp_all

/-! ## Claims -/

/-- Claim C7: matching a value against the `None` spec returns true exactly
when the value is the `None` sentinel: `_check_type v None` computes
`v is None`, and `v is None` holds iff `v` is the null value. -/
theorem check_type_none_spec (v : PyVal) :
    _check_type v .noneSpec = .ok (isNone v) ∧ (isNone v = true ↔ v = .none) := by
  refine ⟨rfl, ?_⟩
  cases v <;> simp [isNone]

/-- Witness for `check_type_none_spec` at `v = None`. -/
theorem check_type_none_spec_witness :
    _check_type .none .noneSpec = .ok (isNone .none) ∧
    (isNone PyVal.none = true ↔ PyVal.none = PyVal.none) :=
  check_type_none_spec .none

/-- Claim C8: each type predicate, viewed as the Python call it performs
(`isinstance` with a fixed, valid classinfo), evaluates without raising for
every input value — including `None` and foreign-class instances — and
returns the boolean the pure predicate computes. -/
theorem predicates_never_raise (v : PyVal) :
    is_strE v = .ok (is_str v) ∧ is_intE v = .ok (is_int v) ∧
    is_numericE v = .ok (is_numeric v) ∧ is_listlikeE v = .ok (is_listlike v) := by
  cases v <;> exact ⟨rfl, rfl, rfl, rfl⟩

/-- Claim C10: Python's `bool` is a subclass of `int`, so `True` satisfies
the integer and numeric checks: `is_int(True)` and `is_numeric(True)` are
true, and `assert_is_int(True)`, `assert_is_numeric(True)` and
`assert_is_type(True, int)` all pass silently with no file access. -/
theorem bool_satisfies_int_checks :
    is_int (.bool true) = true ∧ is_numeric (.bool true) = true ∧
    assert_is_int (.bool true) .none = (.ok (), 0) ∧
    assert_is_numeric (.bool true) .none = (.ok (), 0) ∧
    assert_is_type (.bool true) (.typeSpec .int) .none 1 .none = (.ok (), 0) :=
  ⟨rfl, rfl, rfl, rfl, rfl⟩

/-- Claim C3: when the value matches the spec, `assert_is_type` returns
silently and never invokes the call-site introspector: the outcome is success
with zero attempts to open the caller's source file, for every source-file
state (even an unreadable one). -/
theorem assert_is_type_pass_no_file_read (var : PyVal) (spec : SpecVal)
    (message : Option String) (k : Nat) (src : Option (List Tok))
    (h : _check_type var spec = .ok true) :
    assert_is_type var spec message k src = (.ok (), 0) := by
  simp [assert_is_type, h]

/-- Witness for `assert_is_type_pass_no_file_read` at `3 : int` with an
unreadable source file. -/
theorem assert_is_type_pass_no_file_read_witness :
    assert_is_type (.int 3) (.typeSpec .int) .none 1 .none = (.ok (), 0) :=
  assert_is_type_pass_no_file_read (.int 3) (.typeSpec .int) .none 1 .none rfl

/-- Claim C2, counterexample: the claim also admits a Python *list* of
sub-specs as an alternation, but `_check_type` accepts only tuples — with the
list spec `[int]` and the value `5`, the single sub-spec matches, yet the
matcher raises its `RuntimeError` logic error instead of returning true. -/
theorem list_alternation_counterexample :
    _check_type (.int 5) (.typeSpec .int) = .ok true ∧
    _check_type (.int 5) (.listSpec [.typeSpec .int]) = .error .runtimeError :=
  ⟨rfl, rfl⟩

/-- Claim C2, amended: alternations are *tuples* of one-level sub-specs.  For
a tuple of valid one-level sub-specs, `_check_type` returns true iff at least
one sub-spec matches, and the result is unchanged under any reordering of the
alternatives; a tuple nested as the head alternative is rejected with the
`RuntimeError` logic error. -/
theorem tuple_alternation_semantics (s : PyVal) (ts ts' us : List SpecVal)
    (hv : ∀ t ∈ ts, isValid1 t = true) (hp : ts.Perm ts') :
    _check_type s (.tupleSpec ts) = .ok (ts.any (match1 s)) ∧
    (ts.any (match1 s) = true ↔ ∃ t ∈ ts, match1 s t = true) ∧
    _check_type s (.tupleSpec ts') = _check_type s (.tupleSpec ts) ∧
    _check_type s (.tupleSpec (.tupleSpec us :: ts)) = .error .runtimeError := by
  have hv' : ∀ t ∈ ts', isValid1 t = true := fun t ht => hv t (hp.mem_iff.mpr ht)
  refine ⟨?_, List.any_eq_true, ?_, rfl⟩
  · simp [_check_type, check_any_of_valid1 s ts hv]
  · simp [_check_type, check_any_of_valid1 s ts hv, check_any_of_valid1 s ts' hv',
      any_eq_of_perm (match1 s) ts ts' hp]

/-- Witness for `tuple_alternation_semantics` at the value `5` and the
alternation `(str, int)` reordered to `(int, str)`. -/
theorem tuple_alternation_semantics_witness :
    _check_type (.int 5) (.tupleSpec [.typeSpec .str, .typeSpec .int]) = .ok true ∧
    _check_type (.int 5) (.tupleSpec [.typeSpec .int, .typeSpec .str]) =
      _check_type (.int 5) (.tupleSpec [.typeSpec .str, .typeSpec .int]) ∧
    _check_type (.int 5)
        (.tupleSpec [.tupleSpec [.typeSpec .str], .typeSpec .str, .typeSpec .int]) =
      .error .runtimeError := by
  have h := tuple_alternation_semantics (.int 5) [.typeSpec .str, .typeSpec .int]
    [.typeSpec .int, .typeSpec .str] [.typeSpec .str] (by decide)
    (List.Perm.swap (SpecVal.typeSpec .int) (SpecVal.typeSpec .str) [])
  exact ⟨h.1.trans rfl, h.2.2.1, h.2.2.2⟩

/-- Claim C5, counterexample: the claim demands the `RuntimeError` logic
error for every spec that is not `None`, a type, or a one-level tuple of such
specs; but for the malformed tuple `(int, "garbage")` — whose second
alternative is invalid, as the first conjunct shows — a matching value makes
`any` short-circuit, and the assertion passes without any error. -/
theorem malformed_spec_counterexample :
    _check_nested (.int 5) (.strSpec "garbage") = .error .runtimeError ∧
    assert_is_type (.int 5) (.tupleSpec [.typeSpec .int, .strSpec "garbage"]) .none 1 .none
      = (.ok (), 0) :=
  ⟨rfl, rfl⟩

/-- Claim C5, amended: for every spec whose top-level shape is neither
`None`, nor a type, nor a tuple, the matcher raises its `RuntimeError` logic
error, and `assert_is_type` propagates it before any introspection — never a
type violation.  (Inside a tuple, an invalid alternative raises only if it is
reached before a matching one.) -/
theorem malformed_spec_raises_runtime_error (var : PyVal) (spec : SpecVal)
    (message : Option String) (k : Nat) (src : Option (List Tok))
    (h : specShapeOk spec = false) :
    _check_type var spec = .error .runtimeError ∧
    assert_is_type var spec message k src = (.error .runtimeError, 0) := by
  have h1 : _check_type var spec = .error .runtimeError := by
    cases spec <;> simp_all [specShapeOk, _check_type]
  exact ⟨h1, by simp [assert_is_type, h1]⟩

/-- Witness for `malformed_spec_raises_runtime_error` at the string spec
`"int"` (a plain string passed where a type was expected). -/
theorem malformed_spec_raises_runtime_error_witness :
    _check_type (.int 5) (.strSpec "int") = .error .runtimeError ∧
    assert_is_type (.int 5) (.strSpec "int") .none 1 .none
      = (.error .runtimeError, 0) :=
  malformed_spec_raises_runtime_error (.int 5) (.strSpec "int") .none 1 .none rfl

/-- Claim C6: `assert_matches` uses anchored prefix-match semantics (Python's
`re.match`), not full-string match: for a (literal) pattern it passes exactly
when the pattern matches at the start of the value, and in particular
`assert_matches("hello world", "hello")` passes while
`assert_matches("xhello", "hello")` raises the `H2OValueError`
value-violation error. -/
theorem assert_matches_prefix_semantics (v p : String) (src : Option (List Tok)) :
    (p.toList.isPrefixOf v.toList = true → assert_matches v p src = (.ok (some p), 0)) ∧
    (p.toList.isPrefixOf v.toList = false → ((assert_matches v p src).1).isOk = false) ∧
    assert_matches "hello world" "hello" src = (.ok (some "hello"), 0) ∧
    assert_matches "xhello" "hello" (some matchesLineToks)
      = (.error (.h2oValueErrorMatch "v" "xhello" "hello"), 1) := by
  refine ⟨?_, ?_, rfl, rfl⟩
  · intro h
    have hm : reMatchLit p v = some p := by
      unfold reMatchLit
      rw [h]
      simp
    unfold assert_matches
    rw [hm]
  · intro h
    have hm : reMatchLit p v = .none := by
      unfold reMatchLit
      rw [h]
      simp
    unfold assert_matches
    rw [hm]
    cases hr : _retrieve_assert_arguments src with
    | error e => rfl
    | ok args =>
      cases hh : args.head? with
      | none => simp [hh, Except.isOk, Except.toBool]
      | some vn => simp [hh, Except.isOk, Except.toBool]

/-- Witness for `assert_matches_prefix_semantics` at the specification's two
concrete examples. -/
theorem assert_matches_prefix_semantics_witness :
    assert_matches "hello world" "hello" .none = (.ok (some "hello"), 0) ∧
    ((assert_matches "xhello" "hello" .none).1).isOk = false := by
  have h1 := assert_matches_prefix_semantics "hello world" "hello" .none
  have h2 := assert_matches_prefix_semantics "xhello" "hello" .none
  exact ⟨h1.1 (by decide), h2.2.1 (by decide)⟩

/-- Claim C9: when the pattern does match at the start of the string,
`assert_matches` does not merely pass — it returns the regex match object, a
value distinct from `None`, to its caller. -/
theorem assert_matches_returns_match_object (v p : String) (src : Option (List Tok))
    (h : p.toList.isPrefixOf v.toList = true) :
    assert_matches v p src = (.ok (some p), 0) ∧
    (some p ≠ (Option.none : Option String)) := by
  refine ⟨?_, by simp⟩
  have hm : reMatchLit p v = some p := by
    unfold reMatchLit
    rw [h]
    simp
  unfold assert_matches
  rw [hm]

/-- Witness for `assert_matches_returns_match_object` at
`assert_matches("hello world", "hello")`. -/
theorem assert_matches_returns_match_object_witness :
    assert_matches "hello world" "hello" .none = (.ok (some "hello"), 0) ∧
    (some "hello" ≠ (Option.none : Option String)) :=
  assert_matches_returns_match_object "hello world" "hello" .none (by decide)

/-- Claim C1, counterexample: with an unreadable source file and a failing
check, `assert_is_type` does not raise its `H2OTypeError` with a placeholder
name — the introspector's uncaught `IOError` propagates to the caller in its
place (the module never catches the `open` failure). -/
theorem unreadable_source_counterexample :
    assert_is_type (.str "4") (.typeSpec .int) .none 1 .none = (.error .ioError, 1) :=
  rfl

/-- Claim C1, amended: when the caller's source file cannot be opened, every
assertion entry point on its failure path propagates the introspector's
`IOError` to the assertion's caller in place of the type- or value-violation
error; there is no generic-placeholder fallback. -/
theorem unreadable_source_propagates_ioError (var : PyVal) (spec : SpecVal)
    (message : Option String) (k : Nat) (v p : String)
    (h1 : _check_type var spec = .ok false) (h2 : reMatchLit p v = .none) :
    assert_is_type var spec message k .none = (.error .ioError, 1) ∧
    assert_matches v p .none = (.error .ioError, 1) ∧
    assert_satisfies var false .none = (.error .ioError, 1) := by
  refine ⟨?_, ?_, rfl⟩
  · simp [assert_is_type, h1, _retrieve_assert_arguments]
  · simp [assert_matches, h2, _retrieve_assert_arguments]

/-- Witness for `unreadable_source_propagates_ioError` at a failing type
check (`"4"` against `int`) and a failing prefix match. -/
theorem unreadable_source_propagates_ioError_witness :
    assert_is_type (.str "4") (.typeSpec .int) .none 1 .none = (.error .ioError, 1) ∧
    assert_matches "xhello" "hello" .none = (.error .ioError, 1) ∧
    assert_satisfies (.str "4") false .none = (.error .ioError, 1) :=
  unreadable_source_propagates_ioError (.str "4") (.typeSpec .int) .none 1
    "xhello" "hello" rfl rfl

/-- Claim C4: the introspector splits arguments only at commas at
bracket-nesting depth 0 — in the scanning state, a comma seen at positive
depth is appended to the current buffer, never starting a new one — and for
the source line `assert_satisfies(x, x in [1, 2, 3])` it recovers exactly the
two expression texts `x` and `x in [1, 2, 3]`. -/
theorem bracket_nesting_argument_split (t : Tok) (ts : List Tok)
    (acc : List (List Tok)) (lvl : Int)
    (hl : 0 < lvl) (hk : t.kind = .op) (hx : t.text = ",") :
    tokenLoop (t :: ts) .s2 acc lvl = tokenLoop ts .s2 (appendLast acc t) lvl ∧
    _retrieve_assert_arguments (some satisfiesLineToks) = .ok ["x", "x in [1, 2, 3]"] := by
  refine ⟨?_, by rfl⟩
  have h0 : (lvl == 0) = false := by
    rw [beq_eq_false_iff_ne]
    omega
  have ho : isOpenBracket "," = false := rfl
  have hc : isCloseBracket "," = false := rfl
  have hneg : ¬ (lvl < 0) := by omega
  rw [tokenLoop]
  simp [hk, hx, h0, ho, hc, hneg]

/-- Witness for `bracket_nesting_argument_split` at a comma token inside one
open bracket. -/
theorem bracket_nesting_argument_split_witness :
    tokenLoop [⟨.op, ",", 27, 28⟩] .s2 [[]] 1
      = tokenLoop [] .s2 (appendLast [[]] ⟨.op, ",", 27, 28⟩) 1 ∧
    _retrieve_assert_arguments (some satisfiesLineToks) = .ok ["x", "x in [1, 2, 3]"] :=
  bracket_nesting_argument_split ⟨.op, ",", 27, 28⟩ [] [[]] 1 (by decide) rfl rfl

end Typechecks
